import Mathlib

/-!
Shallow embedding of `axios-jwt-flow` (src/lib/index.js): an axios-based
OAuth 2.0 JWT Bearer Token Flow client.  The embedding models

* the `Client` state (stored token dictionary and defaulted options),
* `Client.setToken`, `Client.isTokenExpired`, `Client.fetchToken`
  (the network call itself is an external collaborator, so a fetch is
  parameterised by its outcome: the parsed response body on success, the
  raised error object on failure),
* the error classification in `fetchToken`'s catch handler
  (`hasNestedProperty` + the `invalid_grant` check),
* `requestInterceptor`, both as a sequential function (single caller)
  and as a small-step transition system over any number of concurrent
  requests sharing the module-level `AsyncLock`, used to settle the
  single-flight claims.

JavaScript quirks that matter are embedded explicitly: `x || d` treats the
number 0 as falsy (`jsOrI`), `a >= undefined` is false (`jsGe`), and a
template string renders `undefined` as the text "undefined" (`renderOpt`).
-/

namespace JwtFlow

/-- JavaScript `o || d` for a numeric `o` that may be `undefined`:
`undefined` and `0` are falsy, every other number is truthy. -/
def jsOrI : Option Int → Int → Int
  | none, d => d
  | some v, d => if v = 0 then d else v

/-- JavaScript `b <= a` where `b` may be `undefined`: comparing with
`undefined` coerces it to `NaN`, and every comparison with `NaN` is false. -/
def jsGe (a : Int) : Option Int → Bool
  | some v => decide (v ≤ a)
  | none => false

/-- JavaScript template-string rendering of a value that may be
`undefined`: `undefined` prints as the text "undefined". -/
def renderOpt : Option String → String
  | some s => s
  | none => "undefined"

/-- The token dictionary held in `this.token`.  `setToken` stores `{}` when
no token is supplied, so every field may be absent. -/
structure StoredToken where
  access_token : Option String := none
  token_type : Option String := none
  instance_url : Option String := none
  expires_at : Option Int := none
deriving DecidableEq

/-- The options bag as passed to `new Client({...})` (after `token` and
`onRefresh` are destructured away).  `expiresIn` and `expiryLeeway` may be
absent (or 0, which `||` treats the same way). -/
structure RawOptions where
  tokenHost : String := ""
  tokenPath : String := ""
  autoRefresh : Bool := false
  expiresIn : Option Int := none
  expiryLeeway : Option Int := none
deriving DecidableEq

/-- `this.options` after the constructor applied its defaults. -/
structure ClientOptions where
  tokenHost : String
  tokenPath : String
  autoRefresh : Bool
  expiresIn : Int
  expiryLeeway : Int
deriving DecidableEq

/-- The mutable state of a `Client`: the stored token and the defaulted
options. -/
structure ClientState where
  token : StoredToken
  options : ClientOptions
deriving DecidableEq

/-- `Client.setToken`: `this.token = token || {}`. -/
def ClientState.setToken (c : ClientState) (t : Option StoredToken) : ClientState :=
  { c with token := t.getD {} }

/-- The `Client` constructor: `this.setToken(token)` and
`this.options = {...options, expiresIn: options.expiresIn || (60 * 5),
expiryLeeway: options.expiryLeeway || 5}`. -/
def mkClient (token : Option StoredToken) (opts : RawOptions) : ClientState :=
  ClientState.setToken
    { token := {}
      options :=
        { tokenHost := opts.tokenHost
          tokenPath := opts.tokenPath
          autoRefresh := opts.autoRefresh
          expiresIn := jsOrI opts.expiresIn (60 * 5)
          expiryLeeway := jsOrI opts.expiryLeeway 5 } }
    token

/-- `Client.isTokenExpired`:
`(Math.floor(new Date() / 1000) + this.options.expiryLeeway) >= this.token.expires_at`,
with `now` standing for `Math.floor(new Date() / 1000)`.  When
`this.token.expires_at` is absent the JavaScript `>=` compares against
`undefined` and yields false — `jsGe` embeds exactly that. -/
def isTokenExpired (now : Int) (c : ClientState) : Bool :=
  jsGe (now + c.options.expiryLeeway) c.token.expires_at

/-- The body of the token endpoint's error response, as attached by axios
at `error.response.data`. -/
structure ErrBody where
  error : Option String := none
  error_description : Option String := none
deriving DecidableEq

/-- The `response` property of an axios error. -/
structure ErrResponse where
  data : Option ErrBody := none
deriving DecidableEq

/-- An error raised by the transport (axios): a message plus, when the
server answered at all, a `response` with its parsed `data`. -/
structure JsError where
  message : String := ""
  response : Option ErrResponse := none
deriving DecidableEq

/-- The error a `fetchToken` caller observes: either the classified
`InvalidGrant` (carrying the endpoint's `error_description`) or the
original error rethrown unchanged. -/
inductive FetchError where
  | invalidGrant (desc : Option String)
  | other (e : JsError)
deriving DecidableEq

/-- `hasNestedProperty(error, 'response', 'data', 'error')` at the one call
site in the source: each level must be an object owning the next key. -/
def hasNestedErrorField (e : JsError) : Bool :=
  match e.response with
  | none => false
  | some r =>
    match r.data with
    | none => false
    | some d => d.error.isSome

/-- The catch handler of `Client.fetchToken`: when
`hasNestedProperty(error, 'response', 'data', 'error')` holds and
`error.response.data.error === 'invalid_grant'`, throw
`new InvalidGrant(error.response.data.error_description)`; otherwise
rethrow the error unchanged (`FetchError.other e` carries the very same
error object). -/
def classifyFetchError (e : JsError) : FetchError :=
  if hasNestedErrorField e then
    match e.response with
    | some r =>
      match r.data with
      | some d =>
        if d.error = some "invalid_grant" then .invalidGrant d.error_description
        else .other e
      | none => .other e
    | none => .other e
  else .other e

/-- The outcome of the external POST to the token endpoint: the parsed
response body on success (`response.data`, a token dictionary), or the
raised error object on failure. -/
inductive FetchOutcome where
  | success (data : StoredToken)
  | failure (e : JsError)
deriving DecidableEq

/-- The result of one `Client.fetchToken` call: the client state after the
call and the settled promise (the token, or the classified error). -/
structure FetchRun where
  client : ClientState
  result : Except FetchError StoredToken

/-- `Client.fetchToken`, parameterised by the outcome of the POST.
`expiresAt` is computed from the current time before the call is issued.
On success the body becomes the new token, with
`token.expires_at = token.expires_at || expiresAt`, and is stored via
`setToken`.  On failure the error is classified and the state is left as
it was. -/
def fetchTokenRun (c : ClientState) (now : Int) (out : FetchOutcome) : FetchRun :=
  let expiresAt := now + c.options.expiresIn
  match out with
  | .success d =>
    let tok : StoredToken := { d with expires_at := some (jsOrI d.expires_at expiresAt) }
    { client := c.setToken (some tok), result := .ok tok }
  | .failure e => { client := c, result := .error (classifyFetchError e) }

/-- An axios request config (after `oauthClient` is destructured away).
Headers are modelled as an association list read through `List.lookup`;
`url`, `method` and `body` stand for the open set of other config fields
the interceptor spreads through unchanged. -/
structure Config where
  url : String := ""
  method : String := "get"
  baseURL : Option String := none
  body : Option String := none
  headers : List (String × String) := []
deriving DecidableEq

/-- The header spread `{...config.headers, Authorization: v}`: every other
key keeps its value, `Authorization` maps to `v`. -/
def setHeader (hs : List (String × String)) (k v : String) : List (String × String) :=
  hs.filter (fun p => p.1 != k) ++ [(k, v)]

/-- The template string `` `${token.token_type} ${token.access_token}` ``. -/
def authHeaderValue (t : StoredToken) : String :=
  renderOpt t.token_type ++ " " ++ renderOpt t.access_token

/-- The config returned by the interceptor:
`{...config, baseURL: oauthClient.token.instance_url,
headers: {...config.headers, Authorization: ...}}`. -/
def attachCredentials (c : ClientState) (cfg : Config) : Config :=
  { cfg with
    baseURL := c.token.instance_url
    headers := setHeader cfg.headers "Authorization" (authHeaderValue c.token) }

/-- The error a request issued through the interceptor can fail with:
the `TokenExpired` thrown when `autoRefresh` is falsy, or the error of the
refresh it awaited. -/
inductive InterceptError where
  | tokenExpired (msg : String)
  | refreshFailed (e : FetchError)
deriving DecidableEq

/-- The observable result of one interceptor run: the client state
afterwards, how many calls reached the token endpoint, and either the
config the target request is dispatched with or the error thrown. -/
structure InterceptRun where
  client : ClientState
  endpointCalls : Nat
  outcome : Except InterceptError Config

/-- `requestInterceptor` for a single caller (no contention: the lock is
acquired immediately and the re-check inside the critical section sees the
same state).  Mirrors the source: outer expiry check, `autoRefresh` split,
re-check under the lock, `fetchToken`, then the config spread. -/
def requestInterceptorRun (c : ClientState) (now : Int) (cfg : Config)
    (out : FetchOutcome) : InterceptRun :=
  if isTokenExpired now c then
    if c.options.autoRefresh then
      if isTokenExpired now c then
        let fr := fetchTokenRun c now out
        match fr.result with
        | .ok _ =>
          { client := fr.client, endpointCalls := 1
            outcome := .ok (attachCredentials fr.client cfg) }
        | .error e =>
          { client := fr.client, endpointCalls := 1
            outcome := .error (.refreshFailed e) }
      else { client := c, endpointCalls := 0, outcome := .ok (attachCredentials c cfg) }
    else { client := c, endpointCalls := 0
           outcome := .error (.tokenExpired "Token is expired") }
  else { client := c, endpointCalls := 0, outcome := .ok (attachCredentials c cfg) }

/-!
The concurrent model.  Any number of requests (indexed by `Nat`) run the
interceptor against one shared `Client` and the module-level `AsyncLock`.
Each request is at a program counter corresponding to the suspension
points of `requestInterceptor`; a scheduler (a list of request indices)
decides who steps next.  A fetch occupies two steps — entering
`PC.fetching` (the POST is issued) and completing it — so two requests
simultaneously at `PC.fetching` would be two concurrent network calls.
-/

/-- Program counter of one request inside `requestInterceptor`. -/
inductive PC where
  | start
  | waitLock
  | critCheck
  | fetching (out : FetchOutcome)
  | doneValid
  | doneNoFetch
  | doneFetched (t : StoredToken)
  | failedFetch (e : FetchError)
  | rejectedExpired
deriving DecidableEq

/-- Global state of the concurrent model: the shared client, each
request's program counter, the lock owner, and how many fetches have been
started (used to index into the oracle of fetch outcomes). -/
structure Sys where
  client : ClientState
  pcs : Nat → PC
  lockHeld : Option Nat
  nfetch : Nat

/-- Replace request `i`'s program counter. -/
def Sys.setPC (s : Sys) (i : Nat) (pc : PC) : Sys :=
  { s with pcs := fun j => if j = i then pc else s.pcs j }

/-- One scheduler step of request `i`.  `oracle k` is the outcome of the
`k`-th POST to the token endpoint. -/
def stepReq (oracle : Nat → FetchOutcome) (now : Int) (s : Sys) (i : Nat) : Sys :=
  match s.pcs i with
  | .start =>
    if isTokenExpired now s.client then
      if s.client.options.autoRefresh then s.setPC i .waitLock
      else s.setPC i .rejectedExpired
    else s.setPC i .doneValid
  | .waitLock =>
    match s.lockHeld with
    | none => { s.setPC i .critCheck with lockHeld := some i }
    | some _ => s
  | .critCheck =>
    if isTokenExpired now s.client then
      { s.setPC i (.fetching (oracle s.nfetch)) with nfetch := s.nfetch + 1 }
    else { s.setPC i .doneNoFetch with lockHeld := none }
  | .fetching out =>
    let fr := fetchTokenRun s.client now out
    match fr.result with
    | .ok t => { s.setPC i (.doneFetched t) with client := fr.client, lockHeld := none }
    | .error e => { s.setPC i (.failedFetch e) with client := fr.client, lockHeld := none }
  | _ => s

/-- Run a whole schedule. -/
def runSys (oracle : Nat → FetchOutcome) (now : Int) (s : Sys) (sched : List Nat) : Sys :=
  sched.foldl (stepReq oracle now) s

/-- Initial state: every request is about to run the interceptor, the lock
is free, no fetch has been started. -/
def initSys (c : ClientState) : Sys :=
  { client := c, pcs := fun _ => .start, lockHeld := none, nfetch := 0 }

/-- Program counters a request can only be at while owning the lock. -/
def holdsLock : PC → Prop
  | .critCheck => True
  | .fetching _ => True
  | _ => False

/-- Mutual exclusion invariant: whoever is inside the critical section is
the recorded lock owner (hence there is at most one such request). -/
def LockInv (s : Sys) : Prop :=
  ∀ i, holdsLock (s.pcs i) → s.lockHeld = some i

/-!
Sample data used by concrete witnesses and counterexamples, mirroring the
repository's own test fixtures (`test/token.json`, an expired copy of it,
and the nocked token endpoint). -/

/-- A token like the test fixture: valid until Unix second 2000000000. -/
def sampleToken : StoredToken :=
  { access_token := some "abc", token_type := some "Bearer"
    instance_url := some "https://x", expires_at := some 2000000000 }

/-- A long-expired copy of `sampleToken` (like the tests' `expiredToken`,
whose `expires_at` is 946684800). -/
def expiredToken : StoredToken :=
  { sampleToken with access_token := some "expired", expires_at := some 946684800 }

/-- Options after construction with `autoRefresh: true` and defaulted
lifetimes. -/
def sampleOptions : ClientOptions :=
  { tokenHost := "https://test.salesforce.com", tokenPath := "/services/oauth2/token"
    autoRefresh := true, expiresIn := 300, expiryLeeway := 5 }

/-- A client holding a valid token. -/
def sampleClient : ClientState :=
  { token := sampleToken, options := sampleOptions }

/-- A client holding an expired token, `autoRefresh` enabled. -/
def expiredClient : ClientState :=
  { token := expiredToken, options := sampleOptions }

/-- A client holding an expired token, `autoRefresh` disabled (as in the
test "should throw an error when trying to use expired token"). -/
def expiredClientNoRefresh : ClientState :=
  { token := expiredToken, options := { sampleOptions with autoRefresh := false } }

/-- The `invalid_grant` response body of the sample endpoint error. -/
def invalidGrantBody : ErrBody :=
  { error := some "invalid_grant", error_description := some "bad signature" }

/-- A token-endpoint error whose body is the `invalid_grant` shape. -/
def invalidGrantError : JsError :=
  { message := "Request failed with status code 400"
    response := some { data := some invalidGrantBody } }

/-- A plain transport failure: no response at all. -/
def networkError : JsError :=
  { message := "ECONNREFUSED", response := none }

/-- A fresh current time at which `sampleToken` is valid and
`expiredToken` is expired. -/
def sampleNow : Int := 1500000000

/-- A response body carrying the falsy `expires_at: 0`. -/
def zeroExpiryResponse : StoredToken := { sampleToken with expires_at := some 0 }

/-- A response body carrying no `expires_at` (the spec §8 scenario). -/
def noExpiryResponse : StoredToken := { sampleToken with expires_at := none }

/-- A token endpoint that always answers the fixture token without an
`expires_at` (as the nocked endpoint in the tests does). -/
def goodOracle : Nat → FetchOutcome := fun _ => .success noExpiryResponse

/-- A token endpoint whose first call fails with a transport error and
whose later calls succeed. -/
def failThenSucceedOracle : Nat → FetchOutcome := fun k =>
  if k = 0 then .failure networkError else .success noExpiryResponse

/-!
Helper lemmas about header lookup through `setHeader`. -/

theorem lookup_setHeader_self (hs : List (String × String)) (k v : String) :
    (setHeader hs k v).lookup k = some v := by
  induction hs with
  | nil => simp [setHeader, List.lookup]
  | cons p t ih =>
    by_cases hp : p.1 = k
    · simpa [setHeader, List.filter_cons, hp] using ih
    · have hb : (p.1 != k) = true := by simpa using hp
      cases p with
      | mk a b =>
        simp only [setHeader, List.filter_cons] at ih ⊢
        simp only at hb
        rw [hb]
        simp only [List.cons_append, List.lookup]
        have : (k == a) = false := by
          simp only at hp
          simpa [beq_iff_eq] using fun h => hp h.symm
        rw [this]
        exact ih

theorem lookup_setHeader_ne (hs : List (String × String)) (k v k' : String)
    (h : k' ≠ k) : (setHeader hs k v).lookup k' = hs.lookup k' := by
  induction hs with
  | nil =>
    have : (k' == k) = false := by simpa [beq_iff_eq] using h
    simp [setHeader, List.lookup, this]
  | cons p t ih =>
    cases p with
    | mk a b =>
      by_cases hp : a = k
      · have hb : (a != k) = false := by simpa using hp
        have hk' : (k' == a) = false := by
          simpa [beq_iff_eq] using fun hh => h (hh.trans hp)
        simp only [setHeader, List.filter_cons] at ih ⊢
        rw [hb] at *
        simp only [List.lookup, hk']
        exact ih
      · have hb : (a != k) = true := by simpa using hp
        simp only [setHeader, List.filter_cons] at ih ⊢
        rw [hb] at *
        simp only [List.cons_append, List.lookup]
        cases hka : (k' == a) with
        | true => rfl
        | false => exact ih

/-!
Invariants of the concurrent model. -/

theorem setPC_pcs_self (s : Sys) (i : Nat) (pc : PC) : (s.setPC i pc).pcs i = pc := by
  simp [Sys.setPC]

theorem setPC_pcs_ne (s : Sys) (i j : Nat) (pc : PC) (h : j ≠ i) :
    (s.setPC i pc).pcs j = s.pcs j := by
  simp [Sys.setPC, h]

theorem lockInv_setPC_noHold (s : Sys) (i : Nat) (pc : PC)
    (h : LockInv s) (hpc : ¬ holdsLock pc) : LockInv (s.setPC i pc) := by
  intro j hj
  by_cases hji : j = i
  · subst hji
    rw [setPC_pcs_self] at hj
    exact absurd hj hpc
  · rw [setPC_pcs_ne s i j pc hji] at hj
    exact h j hj

/-- Each scheduler step preserves mutual exclusion. -/
theorem lockInv_step (oracle : Nat → FetchOutcome) (now : Int) (s : Sys) (i : Nat)
    (h : LockInv s) : LockInv (stepReq oracle now s i) := by
  unfold stepReq
  split
  · -- at start
    split
    · split
      · exact lockInv_setPC_noHold s i .waitLock h (by simp [holdsLock])
      · exact lockInv_setPC_noHold s i .rejectedExpired h (by simp [holdsLock])
    · exact lockInv_setPC_noHold s i .doneValid h (by simp [holdsLock])
  · -- at waitLock
    split
    · next hlock =>
      intro j hj
      by_cases hji : j = i
      · subst hji
        rfl
      · rw [show ({ s.setPC i .critCheck with lockHeld := some i } : Sys).pcs j
              = s.pcs j from setPC_pcs_ne s i j .critCheck hji] at hj
        have := h j hj
        rw [hlock] at this
        exact absurd this (by simp)
    · exact h
  · -- at critCheck
    next hpc =>
    split
    · -- re-check found the token expired: start a fetch, keep the lock
      intro j hj
      by_cases hji : j = i
      · subst hji
        have := h j (by rw [hpc]; trivial)
        simpa using this
      · rw [show ({ s.setPC i (.fetching (oracle s.nfetch)) with
              nfetch := s.nfetch + 1 } : Sys).pcs j
              = s.pcs j from setPC_pcs_ne s i j _ hji] at hj
        have := h j hj
        simpa using this
    · -- re-check found the token valid: release the lock
      intro j hj
      by_cases hji : j = i
      · subst hji
        rw [show ({ s.setPC j .doneNoFetch with lockHeld := none } : Sys).pcs j
              = .doneNoFetch from setPC_pcs_self s j .doneNoFetch] at hj
        exact absurd hj (by simp [holdsLock])
      · rw [show ({ s.setPC i .doneNoFetch with lockHeld := none } : Sys).pcs j
              = s.pcs j from setPC_pcs_ne s i j _ hji] at hj
        have h1 := h j hj
        have h2 := h i (by rw [hpc]; trivial)
        rw [h2] at h1
        cases h1
        exact absurd rfl hji
  · -- fetch completes (either way): release the lock
    next out hpc =>
    dsimp only
    split
    all_goals
      intro j hj
      simp only [Sys.setPC] at hj
      by_cases hji : j = i
    · subst hji
      simp only [if_pos rfl] at hj
      exact absurd hj (by simp [holdsLock])
    · simp only [if_neg hji] at hj
      have h1 := h j hj
      have h2 := h i (by rw [hpc]; trivial)
      rw [h2] at h1
      cases h1
      exact absurd rfl hji
    · subst hji
      simp only [if_pos rfl] at hj
      exact absurd hj (by simp [holdsLock])
    · simp only [if_neg hji] at hj
      have h1 := h j hj
      have h2 := h i (by rw [hpc]; trivial)
      rw [h2] at h1
      cases h1
      exact absurd rfl hji
  · -- terminal program counters step nowhere
    exact h

theorem lockInv_runSys (oracle : Nat → FetchOutcome) (now : Int) (s : Sys)
    (sched : List Nat) (h : LockInv s) : LockInv (runSys oracle now s sched) := by
  induction sched generalizing s with
  | nil => exact h
  | cons a t ih => exact ih _ (lockInv_step oracle now s a h)

theorem lockInv_initSys (c : ClientState) : LockInv (initSys c) := by
  intro i hi
  exact absurd hi (by simp [initSys, holdsLock])

/-- Single-flight invariant for a run whose first fetch outcome is a
success yielding a valid token: the options never change, at most one
fetch has been started, whoever is fetching runs the first fetch, once a
fetch has been started it is either still running or the stored token has
become valid, and no request has failed. -/
structure SFInv (oracle : Nat → FetchOutcome) (now : Int) (opts : ClientOptions)
    (s : Sys) : Prop where
  optsEq : s.client.options = opts
  nfetchLe : s.nfetch ≤ 1
  fetchingOut : ∀ i o, s.pcs i = .fetching o → s.nfetch = 1 ∧ o = oracle 0
  afterOne : s.nfetch = 1 →
    (∃ i o, s.pcs i = .fetching o) ∨ isTokenExpired now s.client = false
  noFail : ∀ i e, s.pcs i ≠ .failedFetch e

/-- Steps that merely move one non-fetching request to a non-fetching,
non-failed program counter (possibly changing the lock owner) preserve
`SFInv`. -/
theorem sfInv_update (oracle : Nat → FetchOutcome) (now : Int) (opts : ClientOptions)
    (s : Sys) (i : Nat) (pc : PC) (L : Option Nat)
    (h : SFInv oracle now opts s)
    (hnf : ∀ o, pc ≠ PC.fetching o) (hff : ∀ e, pc ≠ PC.failedFetch e)
    (hi : ∀ o, s.pcs i ≠ PC.fetching o) :
    SFInv oracle now opts { s.setPC i pc with lockHeld := L } := by
  refine ⟨h.optsEq, h.nfetchLe, ?_, ?_, ?_⟩
  · intro j o hj
    by_cases hji : j = i
    · subst hji
      rw [show ({ s.setPC j pc with lockHeld := L } : Sys).pcs j = pc from
        setPC_pcs_self s j pc] at hj
      exact absurd hj (hnf o)
    · rw [show ({ s.setPC i pc with lockHeld := L } : Sys).pcs j = s.pcs j from
        setPC_pcs_ne s i j pc hji] at hj
      exact h.fetchingOut j o hj
  · intro h1
    rcases h.afterOne h1 with ⟨j, o, hj⟩ | hv
    · have hji : j ≠ i := fun he => (hi o) (he ▸ hj)
      exact Or.inl ⟨j, o, by
        rw [show ({ s.setPC i pc with lockHeld := L } : Sys).pcs j = s.pcs j from
          setPC_pcs_ne s i j pc hji]
        exact hj⟩
    · exact Or.inr hv
  · intro j e hj
    by_cases hji : j = i
    · subst hji
      rw [show ({ s.setPC j pc with lockHeld := L } : Sys).pcs j = pc from
        setPC_pcs_self s j pc] at hj
      exact absurd hj (hff e)
    · rw [show ({ s.setPC i pc with lockHeld := L } : Sys).pcs j = s.pcs j from
        setPC_pcs_ne s i j pc hji] at hj
      exact h.noFail j e hj

/-- Each scheduler step preserves the single-flight invariant, provided the
first fetch outcome is a success whose processed `expires_at` makes the
stored token valid. -/
theorem sfInv_step (oracle : Nat → FetchOutcome) (now : Int) (opts : ClientOptions)
    (d : StoredToken) (hd : oracle 0 = .success d)
    (hvalid : now + opts.expiryLeeway < jsOrI d.expires_at (now + opts.expiresIn))
    (s : Sys) (i : Nat) (hlock : LockInv s) (h : SFInv oracle now opts s) :
    SFInv oracle now opts (stepReq oracle now s i) := by
  unfold stepReq
  split
  · next hpc =>
    split
    · split
      · exact sfInv_update oracle now opts s i .waitLock s.lockHeld h
          (fun o => by simp) (fun e => by simp) (fun o => by simp [hpc])
      · exact sfInv_update oracle now opts s i .rejectedExpired s.lockHeld h
          (fun o => by simp) (fun e => by simp) (fun o => by simp [hpc])
    · exact sfInv_update oracle now opts s i .doneValid s.lockHeld h
        (fun o => by simp) (fun e => by simp) (fun o => by simp [hpc])
  · next hpc =>
    split
    · exact sfInv_update oracle now opts s i .critCheck (some i) h
        (fun o => by simp) (fun e => by simp) (fun o => by simp [hpc])
    · exact h
  · next hpc =>
    split
    · next hexp =>
      have hn0 : s.nfetch = 0 := by
        rcases Nat.eq_or_lt_of_le h.nfetchLe with h1 | h1
        · rcases h.afterOne h1 with ⟨j, o, hj⟩ | hv
          · have hcj := hlock j (by rw [hj]; trivial)
            have hci := hlock i (by rw [hpc]; trivial)
            rw [hci] at hcj
            cases hcj
            rw [hpc] at hj
            cases hj
          · rw [hv] at hexp
            cases hexp
        · omega
      refine ⟨h.optsEq, by simp [hn0], ?_, ?_, ?_⟩
      · intro j o hj
        simp only [Sys.setPC] at hj
        by_cases hji : j = i
        · rw [if_pos hji] at hj
          cases hj
          exact ⟨by simp [hn0], by rw [hn0]⟩
        · rw [if_neg hji] at hj
          have := (h.fetchingOut j o hj).1
          omega
      · intro _
        exact Or.inl ⟨i, oracle s.nfetch, by simp [Sys.setPC]⟩
      · intro j e hj
        simp only [Sys.setPC] at hj
        by_cases hji : j = i
        · rw [if_pos hji] at hj
          cases hj
        · rw [if_neg hji] at hj
          exact h.noFail j e hj
    · exact sfInv_update oracle now opts s i .doneNoFetch none h
        (fun o => by simp) (fun e => by simp) (fun o => by simp [hpc])
  · next out hpc =>
    obtain ⟨hn1, hout⟩ := h.fetchingOut i out hpc
    rw [hd] at hout
    subst hout
    dsimp only [fetchTokenRun]
    refine ⟨?_, ?_, ?_, ?_, ?_⟩
    · simpa [ClientState.setToken] using h.optsEq
    · exact h.nfetchLe
    · intro j o hj
      simp only [Sys.setPC] at hj
      by_cases hji : j = i
      · rw [if_pos hji] at hj
        cases hj
      · rw [if_neg hji] at hj
        have hcj := hlock j (by rw [hj]; trivial)
        have hci := hlock i (by rw [hpc]; trivial)
        rw [hci] at hcj
        cases hcj
        exact absurd rfl hji
    · intro _
      refine Or.inr ?_
      have ho := h.optsEq
      simp [isTokenExpired, ClientState.setToken, jsGe, ho, not_le]
      exact hvalid
    · intro j e hj
      simp only [Sys.setPC] at hj
      by_cases hji : j = i
      · rw [if_pos hji] at hj
        cases hj
      · rw [if_neg hji] at hj
        exact h.noFail j e hj
  · exact h

theorem sfInv_runSys (oracle : Nat → FetchOutcome) (now : Int) (opts : ClientOptions)
    (d : StoredToken) (hd : oracle 0 = .success d)
    (hvalid : now + opts.expiryLeeway < jsOrI d.expires_at (now + opts.expiresIn))
    (s : Sys) (sched : List Nat) (hlock : LockInv s) (h : SFInv oracle now opts s) :
    SFInv oracle now opts (runSys oracle now s sched) := by
  induction sched generalizing s with
  | nil => exact h
  | cons a t ih =>
    exact ih (stepReq oracle now s a) (lockInv_step oracle now s a hlock)
      (sfInv_step oracle now opts d hd hvalid s a hlock h)

theorem sfInv_initSys (oracle : Nat → FetchOutcome) (now : Int) (c : ClientState) :
    SFInv oracle now c.options (initSys c) := by
  refine ⟨rfl, by simp [initSys], ?_, ?_, ?_⟩
  · intro i o hi
    exact absurd hi (by simp [initSys])
  · intro h1
    exact absurd h1 (by simp [initSys])
  · intro i e hi
    exact absurd hi (by simp [initSys])

/-- C3 — Expiry predicate: for every client holding a token with
`expires_at` set, and for every current time and configured leeway,
`isTokenExpired` returns true exactly when `now + expiryLeeway >=
expires_at`.  The check is a pure function of `now` and the stored token
(it is a plain `def` with no state). -/
theorem c3_expiry_iff (now : Int) (c : ClientState) (e : Int)
    (h : c.token.expires_at = some e) :
    isTokenExpired now c = true ↔ now + c.options.expiryLeeway ≥ e := by
  simp [isTokenExpired, h, jsGe, ge_iff_le]

/-- Witness for C3: the expired test fixture at the sample current time. -/
theorem c3_expiry_iff_witness :
    isTokenExpired sampleNow expiredClient = true ↔
      sampleNow + expiredClient.options.expiryLeeway ≥ 946684800 :=
  c3_expiry_iff sampleNow expiredClient 946684800 rfl

/-- C4 — what the code actually does at the claim's failing input: when no
token is held (`setToken` stored `{}`, so `expires_at` is absent), the
JavaScript comparison `now + leeway >= undefined` is false, so
`isTokenExpired` returns false at every time — the absent token is never
expired, where the spec says it is always expired. -/
theorem c4_absent_token_never_expired (now : Int) (c : ClientState)
    (h : c.token.expires_at = none) : isTokenExpired now c = false := by
  simp [isTokenExpired, h, jsGe]

/-- Witness for C4: a client constructed without a token. -/
theorem c4_absent_token_never_expired_witness :
    isTokenExpired sampleNow (mkClient none {}) = false :=
  c4_absent_token_never_expired sampleNow (mkClient none {}) rfl

/-- C5 — for every request issued while the token is expired and
`autoRefresh` is false, the interceptor throws `TokenExpired`, makes no
call to the token endpoint, dispatches nothing to the target API (the
outcome is the error, not a config), and leaves the stored token
unchanged. -/
theorem c5_expired_no_autorefresh_rejects (c : ClientState) (now : Int)
    (cfg : Config) (out : FetchOutcome)
    (hexp : isTokenExpired now c = true)
    (har : c.options.autoRefresh = false) :
    requestInterceptorRun c now cfg out =
      { client := c, endpointCalls := 0
        outcome := .error (.tokenExpired "Token is expired") } := by
  simp [requestInterceptorRun, hexp, har]

/-- Witness for C5: the expired fixture with `autoRefresh` disabled. -/
theorem c5_expired_no_autorefresh_rejects_witness :
    requestInterceptorRun expiredClientNoRefresh sampleNow {} (.failure networkError) =
      { client := expiredClientNoRefresh, endpointCalls := 0
        outcome := .error (.tokenExpired "Token is expired") } :=
  c5_expired_no_autorefresh_rejects expiredClientNoRefresh sampleNow {}
    (.failure networkError) rfl rfl

/-- C8 — refresh atomicity: every `fetchToken` call that fails (for any
reason) leaves the client state, in particular the stored token, exactly
as it was: `setToken` is reached only on the success path. -/
theorem c8_failure_preserves_token (c : ClientState) (now : Int)
    (out : FetchOutcome) (err : FetchError)
    (h : (fetchTokenRun c now out).result = .error err) :
    (fetchTokenRun c now out).client = c := by
  cases out with
  | success d => simp [fetchTokenRun] at h
  | failure e => rfl

/-- Witness for C8: a network failure leaves the sample client intact. -/
theorem c8_failure_preserves_token_witness :
    (fetchTokenRun sampleClient sampleNow (.failure networkError)).client = sampleClient :=
  c8_failure_preserves_token sampleClient sampleNow (.failure networkError)
    (.other networkError) rfl

/-- C10 — default-option coercion in the constructor: `expiresIn` is
stored as 300 whenever the option is absent or 0 (JavaScript `||` treats 0
as falsy), and as the supplied value otherwise; likewise `expiryLeeway`
defaults to 5 on absent or 0 and is honored otherwise. -/
theorem c10_default_coercion (t : Option StoredToken) (opts : RawOptions) :
    ((opts.expiresIn = none ∨ opts.expiresIn = some 0 →
        (mkClient t opts).options.expiresIn = 300) ∧
      (∀ v : Int, opts.expiresIn = some v → v ≠ 0 →
        (mkClient t opts).options.expiresIn = v)) ∧
    ((opts.expiryLeeway = none ∨ opts.expiryLeeway = some 0 →
        (mkClient t opts).options.expiryLeeway = 5) ∧
      (∀ v : Int, opts.expiryLeeway = some v → v ≠ 0 →
        (mkClient t opts).options.expiryLeeway = v)) := by
  refine ⟨⟨fun h => ?_, fun v hv hnz => ?_⟩, ⟨fun h => ?_, fun v hv hnz => ?_⟩⟩
  · rcases h with h | h <;> simp [mkClient, ClientState.setToken, jsOrI, h]
  · simp [mkClient, ClientState.setToken, jsOrI, hv, hnz]
  · rcases h with h | h <;> simp [mkClient, ClientState.setToken, jsOrI, h]
  · simp [mkClient, ClientState.setToken, jsOrI, hv, hnz]

/-- C6 counterexample — the claim says a successful fetch stores the
response's `expires_at` whenever the response carries one; but the code's
`token.expires_at = token.expires_at || expiresAt` treats the carried
value 0 as falsy and silently replaces it with `request_time +
expiresIn`. -/
theorem c6_claim_counterexample :
    zeroExpiryResponse.expires_at = some 0 ∧
    (fetchTokenRun expiredClient sampleNow
        (.success zeroExpiryResponse)).client.token.expires_at ≠ some 0 :=
  ⟨rfl, by decide⟩

/-- C6 (amended) — after a successful fetch the stored token's
`expires_at` equals the response's value whenever the response carries a
truthy (non-zero) one, and equals `request_time + expiresIn` (computed
before the call was issued) when the response carries none or carries the
falsy value 0. -/
theorem c6_expires_at_amended (c : ClientState) (now : Int) (d : StoredToken) :
    (∀ e : Int, d.expires_at = some e → e ≠ 0 →
      (fetchTokenRun c now (.success d)).client.token.expires_at = some e) ∧
    (d.expires_at = none ∨ d.expires_at = some 0 →
      (fetchTokenRun c now (.success d)).client.token.expires_at
        = some (now + c.options.expiresIn)) := by
  constructor
  · intro e he hnz
    simp [fetchTokenRun, ClientState.setToken, jsOrI, he, hnz]
  · intro h
    rcases h with h | h <;> simp [fetchTokenRun, ClientState.setToken, jsOrI, h]

/-- Witness for C6 (amended): the spec §8 scenario — a response without
`expires_at` resolves to a token expiring at `fetch_time + 300`. -/
theorem c6_expires_at_amended_witness :
    (fetchTokenRun expiredClient sampleNow
        (.success noExpiryResponse)).client.token.expires_at
      = some (sampleNow + expiredClient.options.expiresIn) :=
  (c6_expires_at_amended expiredClient sampleNow noExpiryResponse).2 (Or.inl rfl)

/-- C7 — failure classification in `fetchToken`: when the error carries a
response body whose `error` field is `"invalid_grant"`, the call fails
with `InvalidGrant` carrying exactly the body's `error_description`; for
every other failure (no response, no body, no `error` field, or any other
`error` value) the original error object is rethrown unchanged. -/
theorem c7_error_classification (c : ClientState) (now : Int) (e : JsError) :
    (∀ r d, e.response = some r → r.data = some d →
      d.error = some "invalid_grant" →
      (fetchTokenRun c now (.failure e)).result
        = .error (.invalidGrant d.error_description)) ∧
    ((∀ r d, e.response = some r → r.data = some d →
        d.error ≠ some "invalid_grant") →
      (fetchTokenRun c now (.failure e)).result = .error (.other e)) := by
  constructor
  · intro r d hr hd herr
    simp [fetchTokenRun, classifyFetchError, hasNestedErrorField, hr, hd, herr]
  · intro h
    cases hr : e.response with
    | none => simp [fetchTokenRun, classifyFetchError, hasNestedErrorField, hr]
    | some r =>
      cases hd : r.data with
      | none => simp [fetchTokenRun, classifyFetchError, hasNestedErrorField, hr, hd]
      | some d =>
        have hne := h r d hr hd
        cases herr : d.error with
        | none =>
          simp [fetchTokenRun, classifyFetchError, hasNestedErrorField, hr, hd, herr]
        | some s =>
          have hs : s ≠ "invalid_grant" := by
            intro hs
            exact hne (by rw [herr, hs])
          simp [fetchTokenRun, classifyFetchError, hasNestedErrorField, hr, hd, herr, hs]

/-- Witness for C7: the spec's own example — a body
`{error: "invalid_grant", error_description: "bad signature"}` yields
`InvalidGrant` with exactly that description. -/
theorem c7_error_classification_witness :
    (fetchTokenRun sampleClient sampleNow (.failure invalidGrantError)).result
      = .error (.invalidGrant (some "bad signature")) :=
  (c7_error_classification sampleClient sampleNow invalidGrantError).1
    { data := some invalidGrantBody } invalidGrantBody rfl rfl rfl

/-- C9 — for every request issued while the stored token is valid, the
interceptor makes zero refresh calls, leaves the client untouched, and
dispatches the request with `baseURL` set to the token's `instance_url`,
the `Authorization` header set to `"<token_type> <access_token>"`, every
other header unchanged, and every other config field unchanged. -/
theorem c9_valid_token_dispatch (c : ClientState) (now : Int) (cfg : Config)
    (out : FetchOutcome) (tt tok : String)
    (hexp : isTokenExpired now c = false)
    (htt : c.token.token_type = some tt)
    (hat : c.token.access_token = some tok) :
    (requestInterceptorRun c now cfg out).endpointCalls = 0 ∧
    (requestInterceptorRun c now cfg out).client = c ∧
    (requestInterceptorRun c now cfg out).outcome = .ok (attachCredentials c cfg) ∧
    (attachCredentials c cfg).baseURL = c.token.instance_url ∧
    (attachCredentials c cfg).headers.lookup "Authorization" = some (tt ++ " " ++ tok) ∧
    (∀ k, k ≠ "Authorization" →
      (attachCredentials c cfg).headers.lookup k = cfg.headers.lookup k) ∧
    (attachCredentials c cfg).url = cfg.url ∧
    (attachCredentials c cfg).method = cfg.method ∧
    (attachCredentials c cfg).body = cfg.body := by
  refine ⟨?_, ?_, ?_, rfl, ?_, ?_, rfl, rfl, rfl⟩
  · simp [requestInterceptorRun, hexp]
  · simp [requestInterceptorRun, hexp]
  · simp [requestInterceptorRun, hexp]
  · simp [attachCredentials, authHeaderValue, htt, hat, renderOpt, lookup_setHeader_self]
  · intro k hk
    simpa [attachCredentials] using
      lookup_setHeader_ne cfg.headers "Authorization" (authHeaderValue c.token) k hk

/-- A sample request config with a pre-existing header. -/
def sampleConfig : Config :=
  { url := "/services/apexrest/myservice", method := "get"
    headers := [("Accept", "application/json")] }

/-- Witness for C9: the valid fixture client dispatches the sample request
with `Authorization: "Bearer abc"` and the `Accept` header intact. -/
theorem c9_valid_token_dispatch_witness :
    (requestInterceptorRun sampleClient sampleNow sampleConfig
        (.failure networkError)).endpointCalls = 0 ∧
    (requestInterceptorRun sampleClient sampleNow sampleConfig
        (.failure networkError)).client = sampleClient ∧
    (requestInterceptorRun sampleClient sampleNow sampleConfig
        (.failure networkError)).outcome
      = .ok (attachCredentials sampleClient sampleConfig) ∧
    (attachCredentials sampleClient sampleConfig).baseURL
      = sampleClient.token.instance_url ∧
    (attachCredentials sampleClient sampleConfig).headers.lookup "Authorization"
      = some ("Bearer" ++ " " ++ "abc") ∧
    (∀ k, k ≠ "Authorization" →
      (attachCredentials sampleClient sampleConfig).headers.lookup k
        = sampleConfig.headers.lookup k) ∧
    (attachCredentials sampleClient sampleConfig).url = sampleConfig.url ∧
    (attachCredentials sampleClient sampleConfig).method = sampleConfig.method ∧
    (attachCredentials sampleClient sampleConfig).body = sampleConfig.body :=
  c9_valid_token_dispatch sampleClient sampleNow sampleConfig
    (.failure networkError) "Bearer" "abc" rfl rfl rfl

/-- Witness for C10: an explicit `expiresIn: 0` is replaced by 300, while
an explicit `expiryLeeway: 7` is honored. -/
theorem c10_default_coercion_witness :
    (mkClient none { expiresIn := some 0, expiryLeeway := some 7 }).options.expiresIn
        = 300 ∧
    (mkClient none { expiresIn := some 0, expiryLeeway := some 7 }).options.expiryLeeway
        = 7 :=
  ⟨(c10_default_coercion none { expiresIn := some 0, expiryLeeway := some 7 }).1.1
      (Or.inr rfl),
    (c10_default_coercion none { expiresIn := some 0, expiryLeeway := some 7 }).2.2 7
      rfl (by decide)⟩

/-- C2 — re-check after lock acquisition: a request inside the critical
section that finds the expiry check false does not start a fetch (the
fetch counter is untouched), leaves the client — hence the currently
stored token — unchanged, proceeds (`doneNoFetch`), and releases the
lock. -/
theorem c2_recheck_skips_fetch (oracle : Nat → FetchOutcome) (now : Int)
    (s : Sys) (i : Nat)
    (hpc : s.pcs i = PC.critCheck)
    (hval : isTokenExpired now s.client = false) :
    (stepReq oracle now s i).nfetch = s.nfetch ∧
    (stepReq oracle now s i).client = s.client ∧
    (stepReq oracle now s i).pcs i = PC.doneNoFetch ∧
    (stepReq oracle now s i).lockHeld = none := by
  simp [stepReq, hpc, hval, Sys.setPC]

/-- A state in which request 0 holds the lock and is about to re-check,
while the shared token has already been refreshed (it is valid). -/
def refreshedCritSys : Sys :=
  { client := sampleClient
    pcs := fun j => if j = 0 then PC.critCheck else PC.waitLock
    lockHeld := some 0
    nfetch := 1 }

/-- Witness for C2: the waiter that enters the critical section after a
refresh performs no fetch and proceeds with the stored token. -/
theorem c2_recheck_skips_fetch_witness :
    (stepReq goodOracle sampleNow refreshedCritSys 0).nfetch = refreshedCritSys.nfetch ∧
    (stepReq goodOracle sampleNow refreshedCritSys 0).client = refreshedCritSys.client ∧
    (stepReq goodOracle sampleNow refreshedCritSys 0).pcs 0 = PC.doneNoFetch ∧
    (stepReq goodOracle sampleNow refreshedCritSys 0).lockHeld = none :=
  c2_recheck_skips_fetch goodOracle sampleNow refreshedCritSys 0 rfl rfl

/-- C1 (amended) — single flight, as the code actually guarantees it:
(a) in every reachable state at most one fetch is in flight — any two
requests simultaneously at `PC.fetching` are the same request; and
(b) when the first fetch succeeds and yields a valid token, at most one
call is made to the token endpoint over the whole run and no request
receives an error.  (On a *failing* fetch, only the initiating caller
receives the error and later waiters re-fetch — see the counterexample.) -/
theorem c1_single_flight_amended (c : ClientState) (oracle : Nat → FetchOutcome)
    (now : Int) (sched : List Nat) :
    (∀ i j oi oj,
      (runSys oracle now (initSys c) sched).pcs i = PC.fetching oi →
      (runSys oracle now (initSys c) sched).pcs j = PC.fetching oj → i = j) ∧
    (∀ d : StoredToken, oracle 0 = .success d →
      now + c.options.expiryLeeway < jsOrI d.expires_at (now + c.options.expiresIn) →
      (runSys oracle now (initSys c) sched).nfetch ≤ 1 ∧
      ∀ i e, (runSys oracle now (initSys c) sched).pcs i ≠ PC.failedFetch e) := by
  constructor
  · intro i j oi oj hi hj
    have hl := lockInv_runSys oracle now (initSys c) sched (lockInv_initSys c)
    have h1 := hl i (by rw [hi]; trivial)
    have h2 := hl j (by rw [hj]; trivial)
    rw [h1] at h2
    cases h2
    rfl
  · intro d hd hvalid
    have hs := sfInv_runSys oracle now c.options d hd hvalid (initSys c) sched
      (lockInv_initSys c) (sfInv_initSys oracle now c)
    exact ⟨hs.nfetchLe, hs.noFail⟩

/-- Witness for C1 (amended): schedule `[0,0,0]` leaves request 0 mid-fetch
(so part (a) applies to it), and with an always-succeeding endpoint the
whole run makes exactly one call and nobody fails. -/
theorem c1_single_flight_amended_witness :
    (0 = 0) ∧
    ((runSys goodOracle sampleNow (initSys expiredClient) [0, 0, 0]).nfetch ≤ 1 ∧
      ∀ i e, (runSys goodOracle sampleNow (initSys expiredClient) [0, 0, 0]).pcs i
        ≠ PC.failedFetch e) :=
  ⟨(c1_single_flight_amended expiredClient goodOracle sampleNow [0, 0, 0]).1 0 0
      (.success noExpiryResponse) (.success noExpiryResponse) rfl rfl,
    (c1_single_flight_amended expiredClient goodOracle sampleNow [0, 0, 0]).2
      noExpiryResponse rfl (by decide)⟩

/-- C1 counterexample — two concurrent requests observe the expired token
before any refresh completes, the first fetch fails: the claim says
exactly one network call is made and both callers receive that single
call's outcome, but in this run the token endpoint is called twice
(`nfetch = 2`, not 1), request 0 receives the error while request 1
triggers its own fetch and receives a fresh token — the two callers see
different outcomes. -/
theorem c1_claim_counterexample :
    (runSys failThenSucceedOracle sampleNow (initSys expiredClient)
        [0, 1, 0, 0, 0, 1, 1, 1]).nfetch = 2 ∧
    (runSys failThenSucceedOracle sampleNow (initSys expiredClient)
        [0, 1, 0, 0, 0, 1, 1, 1]).nfetch ≠ 1 ∧
    (runSys failThenSucceedOracle sampleNow (initSys expiredClient)
        [0, 1, 0, 0, 0, 1, 1, 1]).pcs 0 = PC.failedFetch (.other networkError) ∧
    (runSys failThenSucceedOracle sampleNow (initSys expiredClient)
        [0, 1, 0, 0, 0, 1, 1, 1]).pcs 1
      = PC.doneFetched { noExpiryResponse with expires_at := some (sampleNow + 300) } :=
  ⟨rfl, by decide, rfl, rfl⟩

end JwtFlow
